import Mathlib

/-!
Verification of the Chimera multi-chain deployment engine
(`src/sdk/deployer.ts`, `src/sdk/manifest.ts`) against its specification.

Shallow embedding conventions:
* Every network round-trip (RPC call, wallet construction, compiler run) is an
  external collaborator; its outcome is a field of an environment record of
  type `Except String α` (`.error msg` models a thrown/rejected call whose
  message is `msg`).
* `bigint` and `number` values are `Nat`; wei amounts are exact naturals.
* Hex strings that denote byte data (bytecode, salts, hashes, addresses) are
  modelled as `List Nat` byte sequences; string-level `0x`-prefix stripping and
  concatenation in the source corresponds to list concatenation.
* JavaScript `a || b` on strings/bigints is falsy on `""`/`0`; helpers
  `jsOrString` / `jsTruthyNat` reproduce this.
* A settled promise is an `Outcome`: `fulfilled` with a value, or `rejected`
  with an optional `.message` and a `String(reason)` rendering.
* `keccak256`, the ABI coder, sha256 and address checksumming live in external
  libraries (`ethers`, node `crypto`); they enter as function parameters.
-/

namespace Chimera

/-- `ChainConfig` from `src/sdk/chainManager.ts` (the `explorer` field is
optional and unused by the deployer). -/
structure ChainConfig where
  name : String
  rpc : String
  chainId : Nat
  explorer : Option String
deriving DecidableEq

/-- The slice of a compiled contract's ABI that the deployer inspects:
`abi.find(item => item.type === 'constructor')?.inputs`.  `none` models both
"no constructor entry" and "constructor entry without inputs". -/
structure Abi where
  ctorInputs : Option (List String)
deriving DecidableEq

/-- Result of `compileContract`: `{ abi, bytecode, contractName }`.  The
bytecode hex string is modelled as its byte sequence. -/
structure Artifact where
  abi : Abi
  bytecode : List Nat
  contractName : String
deriving DecidableEq

/-- `DeploymentOptions` from `src/sdk/deployer.ts`. Constructor `args : any[]`
are opaque values, modelled as strings. -/
structure DeploymentOptions where
  «to» : String
  args : List String
  privateKey : Option String
  salt : Option String
  profile : Option String
  gasLimit : Option Nat
  gasPrice : Option Nat
deriving DecidableEq

/-- `DeploymentResult` from `src/sdk/deployer.ts` (the spec's
`PerTargetResult`).  Absent optional fields are `none`. -/
structure DeploymentResult where
  chain : String
  chainId : Nat
  address : String
  txHash : String
  blockNumber : Nat
  success : Bool
  error : Option String
  salt : Option String
  profile : Option String
deriving DecidableEq

/-- `summary` object built by the parallel dispatchers.  `addresses` is a
JavaScript object, modelled as an insertion-ordered association list. -/
structure DeploySummary where
  chains : List String
  addresses : List (String × String)
  totalGasUsed : String
deriving DecidableEq

/-- `ParallelDeploymentResult` from `src/sdk/deployer.ts` (the spec's
`AggregateResult`). -/
structure ParallelDeploymentResult where
  total : Nat
  successful : Nat
  failed : Nat
  results : List DeploymentResult
  summary : DeploySummary
deriving DecidableEq

/-- Fee data returned by `provider.getFeeData()`; `none` models `null`. -/
structure FeeData where
  maxFeePerGas : Option Nat
  gasPrice : Option Nat
deriving DecidableEq

/-- Transaction receipt as consumed by the deployer: `status` (0 = reverted)
and `blockNumber`. -/
structure Receipt where
  status : Nat
  blockNumber : Nat
deriving DecidableEq

/-- Gas parameters attached to a submitted transaction; used as the
observation of what, if anything, was sent to the network. -/
structure TxParams where
  gasLimit : Nat
  gasPrice : Nat
deriving DecidableEq

/-- JavaScript `a || b` for an optional string `a`: `undefined` and `""` are
falsy. -/
def jsOrString (a : Option String) (b : String) : String :=
  match a with
  | some s => if s = "" then b else s
  | none => b

/-- JavaScript truthiness of an optional bigint: `null`/`undefined` and `0n`
are falsy.  Returns the value when truthy. -/
def jsTruthyNat (a : Option Nat) : Option Nat :=
  match a with
  | some 0 => none
  | some n => some n
  | none => none

/-- JavaScript `a || b` for optional bigints (`0n` falsy). -/
def jsOrNat (a : Option Nat) (b : Nat) : Nat :=
  match jsTruthyNat a with
  | some n => n
  | none => b

/-- Strip trailing `'0'` characters, as `ethers.formatEther` does with the
fractional part. -/
def trimTrailingZeros (s : String) : String :=
  String.mk ((s.data.reverse.dropWhile (fun c => c = '0')).reverse)

/-- Left-pad a digit string with zeros to 18 places. -/
def padTo18 (s : String) : String :=
  String.mk (List.replicate (18 - s.length) '0') ++ s

/-- `ethers.formatEther`: render a wei amount as a decimal ether string with
at least one fractional digit (`0 ↦ "0.0"`). -/
def formatEther (wei : Nat) : String :=
  let intPart := wei / 10 ^ 18
  let frac := trimTrailingZeros (padTo18 (toString (wei % 10 ^ 18)))
  toString intPart ++ "." ++ (if frac = "" then "0" else frac)

/-- Value of one tenth of a gwei in wei (`ethers.parseUnits('0.1', 'gwei')`). -/
def gwei01 : Nat := 10 ^ 8

/-- Value of `0.01` gwei in wei (`ethers.parseUnits('0.01', 'gwei')`), the
minimum sanity threshold of `estimateGas`. -/
def minGasPriceWei : Nat := 10 ^ 7

/-- `estimateGas` from `src/sdk/deployer.ts` lines 421-461.  The two
`Except` parameters are the outcomes of the grouped
`getDeployTransaction`/`provider.estimateGas` round-trip and of
`provider.getFeeData()`.  The internal `try`/`catch` (including the explicit
`throw` when neither fee field is truthy) collapses every failure to the fixed
defaults `(3000000, 0.1 gwei)`. -/
def estimateGas (estimateCall : Except String Nat)
    (feeDataCall : Except String FeeData) : Nat × Nat :=
  match estimateCall with
  | .error _ => (3000000, gwei01)
  | .ok estimatedGas =>
    let gasLimit := estimatedGas * 120 / 100 + 100000
    match feeDataCall with
    | .error _ => (3000000, gwei01)
    | .ok feeData =>
      match jsTruthyNat feeData.maxFeePerGas with
      | some p => (gasLimit, if p < minGasPriceWei then gwei01 else p)
      | none =>
        match jsTruthyNat feeData.gasPrice with
        | some p => (gasLimit, if p < minGasPriceWei then gwei01 else p)
        | none => (3000000, gwei01)

/-- Numeric value of one hex digit character (`0` for non-hex input, which
the deployer never produces). -/
def hexDigitVal (c : Char) : Nat :=
  if '0' ≤ c ∧ c ≤ '9' then c.toNat - 48
  else if 'a' ≤ c ∧ c ≤ 'f' then c.toNat - 87
  else if 'A' ≤ c ∧ c ≤ 'F' then c.toNat - 55
  else 0

/-- Pair up hex digit characters into bytes. -/
def hexPairsToBytes : List Char → List Nat
  | a :: b :: rest => (16 * hexDigitVal a + hexDigitVal b) :: hexPairsToBytes rest
  | _ => []

/-- Byte sequence denoted by a hex string, with or without a `0x` prefix. -/
def hexToBytes (s : String) : List Nat :=
  hexPairsToBytes (if s.startsWith "0x" then (s.drop 2).data else s.data)

/-- The fixed deterministic deployment proxy
`CREATE2_FACTORY_ADDRESS = 0x4e59b44847b379578588920cA78FbF26c0B4956C`
(`src/sdk/deployer.ts` line 44), as its 20-byte sequence. -/
def create2FactoryAddress : List Nat :=
  hexToBytes "0x4e59b44847b379578588920cA78FbF26c0B4956C"

/-- `DEFAULT_CREATE2_SALT = '0x' + '00'.repeat(31) + '01'`
(`src/sdk/deployer.ts` line 49). -/
def defaultCreate2Salt : String :=
  "0x" ++ String.join (List.replicate 31 "00") ++ "01"

/-- `createDeployBytecode` (`src/sdk/deployer.ts` lines 525-530): strip the
`0x` prefixes and concatenate creation bytecode with the ABI-encoded
constructor arguments.  At the byte level this is list concatenation. -/
def createDeployBytecode (bytecode constructorArgs : List Nat) : List Nat :=
  bytecode ++ constructorArgs

/-- `calculateCREATE2Address` (`src/sdk/deployer.ts` lines 535-545).
`keccak` is `ethers.keccak256` (external library, 32-byte output).
`solidityPacked(['bytes1','address','bytes32','bytes32'], ['0xff', factory,
salt, initCodeHash])` is the byte concatenation
`0xff ∥ factory ∥ salt ∥ initCodeHash`; `.slice(-40)` on the 0x-prefixed
64-digit hash string keeps its last 40 hex digits, i.e. the last 20 bytes;
`ethers.getAddress` only re-renders those bytes with an EIP-55 checksum. -/
def calculateCREATE2Address (keccak : List Nat → List Nat)
    (salt bytecode factoryAddress : List Nat) : List Nat :=
  let initCodeHash := keccak bytecode
  let packed := keccak (255 :: (factoryAddress ++ (salt ++ initCodeHash)))
  packed.drop (packed.length - 20)

/-- The last `n` bytes of a byte sequence (spec wording). -/
def lastBytes (n : Nat) (l : List Nat) : List Nat :=
  l.drop (l.length - n)

/-- Address derivation exactly as §4.2 of the spec words it: "the last 20
bytes of `hash(0xff ∥ proxyAddress ∥ salt ∥ hash(initPayload))`". -/
def specCreate2Address (hash : List Nat → List Nat)
    (salt initPayload proxyAddress : List Nat) : List Nat :=
  lastBytes 20 (hash ([255] ++ proxyAddress ++ salt ++ hash initPayload))

/-- `encodeConstructorArgs` (`src/sdk/deployer.ts` lines 509-520): empty
args, a missing constructor entry, or a constructor without inputs give
`'0x'` (no bytes); otherwise the external ABI coder `encode` runs. -/
def encodeConstructorArgs (encode : List String → List String → List Nat)
    (abi : Abi) (args : List String) : List Nat :=
  if args.isEmpty then []
  else
    match abi.ctorInputs with
    | none => []
    | some inputs => encode inputs args

/-- A settled promise, as `Promise.allSettled` reports it: `rejected` carries
the reason's optional `.message` and its `String(reason)` rendering. -/
inductive Outcome where
  | fulfilled (value : DeploymentResult)
  | rejected (message : Option String) (asString : String)
deriving DecidableEq

/-- The failure-shaped `DeploymentResult` built by the `catch` blocks of
`deployToChain` and `deployToChainCREATE2` (identical in both). -/
def catchFailure (chain : ChainConfig) (msg : String) : DeploymentResult :=
  { chain := chain.name, chainId := chain.chainId, address := "0x0"
    txHash := "", blockNumber := 0, success := false, error := some msg
    salt := none, profile := none }

/-- Error message of the balance guard (`deployer.ts` lines 128-131 and
229-232). -/
def insufficientFundsMsg (chainName : String) (required balance : Nat) : String :=
  "Insufficient funds on " ++ chainName ++ ". Required: " ++
    formatEther required ++ " ETH, Balance: " ++ formatEther balance ++ " ETH"

/-- `options.privateKey || process.env.PRIVATE_KEY`, then the
`if (!privateKey)` guard: the resolved key is `none` when both sources are
absent or the resolved string is empty. -/
def resolvePrivateKey (optKey envKey : Option String) : Option String :=
  let k := match optKey with
    | some s => if s = "" then envKey else some s
    | none => envKey
  match k with
  | some s => if s = "" then none else some s
  | none => none

instance {ε α : Type} [DecidableEq ε] [DecidableEq α] : DecidableEq (Except ε α) := fun x y =>
  match x, y with
  | .ok a, .ok b =>
    if h : a = b then .isTrue (by rw [h]) else .isFalse (by intro he; cases he; exact h rfl)
  | .error a, .error b =>
    if h : a = b then .isTrue (by rw [h]) else .isFalse (by intro he; cases he; exact h rfl)
  | .ok _, .error _ => .isFalse (by intro h; cases h)
  | .error _, .ok _ => .isFalse (by intro h; cases h)

/-- The deployed-contract handle returned by `factory.deploy`:
`deploymentTransaction()` (possibly `null`) and the `getAddress()` call. -/
structure DeployedContract where
  deploymentTx : Option String
  getAddr : Except String String
deriving DecidableEq

/-- External-world outcomes consumed by one `deployToChain` run, in program
order: compiler, `process.env.PRIVATE_KEY`, wallet construction,
`getDeployTransaction`+`estimateGas` (grouped: both feed `estimateGas`'s
internal `try`), `getFeeData`, `getBalance`, `factory.deploy`, and
`waitForTransaction` (`.error` covers its timeout rejection, `.ok none` a
`null` receipt). -/
structure DirectEnv where
  compile : Except String Artifact
  envPrivateKey : Option String
  wallet : Except String String
  gasEstimateCall : Except String Nat
  feeData : Except String FeeData
  getBalance : Except String Nat
  deployCall : Except String DeployedContract
  waitForTx : Except String (Option Receipt)
deriving DecidableEq

/-- Body of `deployToChain` (`src/sdk/deployer.ts` lines 106-160): the
statements inside the `try`.  `.error` models a thrown error reaching the
`catch`; the second component records the gas parameters of the submitted
transaction (`none` = `factory.deploy` never reached). -/
def deployToChainBody (env : DirectEnv) (chain : ChainConfig)
    (options : DeploymentOptions) : Except String DeploymentResult × Option TxParams :=
  match env.compile with
  | .error msg => (.error msg, none)
  | .ok _artifact =>
    match resolvePrivateKey options.privateKey env.envPrivateKey with
    | none => (.error "Private key is required. Set PRIVATE_KEY env var or use --privateKey flag.", none)
    | some _privateKey =>
      match env.wallet with
      | .error msg => (.error msg, none)
      | .ok _walletAddress =>
        let (gasLimit, gasPrice) := estimateGas env.gasEstimateCall env.feeData
        match env.getBalance with
        | .error msg => (.error msg, none)
        | .ok balance =>
          if balance < gasLimit * gasPrice then
            (.error (insufficientFundsMsg chain.name (gasLimit * gasPrice) balance), none)
          else
            match env.deployCall with
            | .error msg => (.error msg, some ⟨gasLimit, gasPrice⟩)
            | .ok contract =>
              match contract.deploymentTx with
              | none => (.error "Failed to get deployment transaction", some ⟨gasLimit, gasPrice⟩)
              | some txHash =>
                match env.waitForTx with
                | .error msg => (.error msg, some ⟨gasLimit, gasPrice⟩)
                | .ok none =>
                  (.error ("Transaction failed on " ++ chain.name), some ⟨gasLimit, gasPrice⟩)
                | .ok (some receipt) =>
                  if receipt.status = 0 then
                    (.error ("Transaction failed on " ++ chain.name), some ⟨gasLimit, gasPrice⟩)
                  else
                    match contract.getAddr with
                    | .error msg => (.error msg, some ⟨gasLimit, gasPrice⟩)
                    | .ok address =>
                      (.ok { chain := chain.name, chainId := chain.chainId
                             address := address, txHash := txHash
                             blockNumber := receipt.blockNumber, success := true
                             error := none, salt := options.salt
                             profile := options.profile },
                       some ⟨gasLimit, gasPrice⟩)

/-- `deployToChain` (`src/sdk/deployer.ts` lines 101-172): the `try` body
with its catch-all `catch` converting any thrown error into a
failure-shaped result. -/
def deployToChain (env : DirectEnv) (chain : ChainConfig)
    (options : DeploymentOptions) : DeploymentResult × Option TxParams :=
  match deployToChainBody env chain options with
  | (.ok r, t) => (r, t)
  | (.error msg, t) => (catchFailure chain msg, t)

/-- The settled state of the promise returned by `deployToChain`: the
catch-all means the promise always fulfills. -/
def deployToChainSettle (env : DirectEnv) (chain : ChainConfig)
    (options : DeploymentOptions) : Outcome :=
  .fulfilled (deployToChain env chain options).1

/-- External-world outcomes consumed by one `deployToChainCREATE2` run, plus
the external pure collaborators it calls: the ABI coder (`abiEncode`),
`ethers.keccak256` (`keccak`), and `ethers.getAddress` rendering 20 bytes as
a checksummed hex string (`renderAddress`). -/
structure Create2Env where
  compile : Except String Artifact
  envPrivateKey : Option String
  wallet : Except String String
  abiEncode : List String → List String → List Nat
  keccak : List Nat → List Nat
  renderAddress : List Nat → String
  gasEstimateCall : Except String Nat
  feeData : Except String FeeData
  getBalance : Except String Nat
  sendTx : Except String String
  waitForTx : Except String (Option Receipt)

/-- Gas limit of the CREATE2 path (`deployer.ts` lines 214-220):
`provider.estimateGas({...}).catch(() => 5000000n)` swallows an estimate
error with a `5000000` fallback, then
`gasLimit = BigInt(Math.floor(Number(gasEstimate) * 1.2)) + 500000n`.  For
gas magnitudes (far below 2^50) the double-precision product rounds to the
exact value of `gasEstimate * 6/5`, so the floor is `gasEstimate * 12 / 10`. -/
def create2GasLimit (gasEstimateCall : Except String Nat) : Nat :=
  (match gasEstimateCall with
    | .ok g => g
    | .error _ => 5000000) * 12 / 10 + 500000

/-- Gas price of the CREATE2 path (`deployer.ts` line 222):
`feeData.gasPrice || ethers.parseUnits('0.1', 'gwei')` — `null` and `0n` are
falsy; no minimum-fee floor is applied here. -/
def create2GasPrice (feeData : FeeData) : Nat :=
  jsOrNat feeData.gasPrice gwei01

/-- Body of `deployToChainCREATE2` (`src/sdk/deployer.ts` lines 182-265).
Notes kept from the source:
* `provider.estimateGas({...}).catch(() => 5000000n)` — the estimate error is
  swallowed locally with a `5000000` fallback;
* `gasLimit = BigInt(Math.floor(Number(gasEstimate) * 1.2)) + 500000n` —
  for gas magnitudes (well below 2^50) the float product rounds to the exact
  value of `gasEstimate * 6/5` floored, i.e. `gasEstimate * 12 / 10`;
* `feeData.gasPrice || parseUnits('0.1','gwei')` — `0n` is falsy;
* `getFeeData()` is NOT wrapped: its rejection reaches the outer `catch`;
* the deployed address is recomputed locally via `calculateCREATE2Address`. -/
def deployToChainCREATE2Body (env : Create2Env) (chain : ChainConfig)
    (options : DeploymentOptions) : Except String DeploymentResult × Option TxParams :=
  match env.compile with
  | .error msg => (.error msg, none)
  | .ok artifact =>
    match resolvePrivateKey options.privateKey env.envPrivateKey with
    | none => (.error "Private key is required", none)
    | some _privateKey =>
      match env.wallet with
      | .error msg => (.error msg, none)
      | .ok _walletAddress =>
        let constructorArgs := encodeConstructorArgs env.abiEncode artifact.abi options.args
        let initCode := createDeployBytecode artifact.bytecode constructorArgs
        let salt := jsOrString options.salt defaultCreate2Salt
        let gasLimit := create2GasLimit env.gasEstimateCall
        match env.feeData with
        | .error msg => (.error msg, none)
        | .ok feeData =>
          let gasPrice := create2GasPrice feeData
          match env.getBalance with
          | .error msg => (.error msg, none)
          | .ok balance =>
            if balance < gasLimit * gasPrice then
              (.error (insufficientFundsMsg chain.name (gasLimit * gasPrice) balance), none)
            else
              match env.sendTx with
              | .error msg => (.error msg, some ⟨gasLimit, gasPrice⟩)
              | .ok txHash =>
                match env.waitForTx with
                | .error msg => (.error msg, some ⟨gasLimit, gasPrice⟩)
                | .ok none =>
                  (.error ("CREATE2 deployment failed on " ++ chain.name), some ⟨gasLimit, gasPrice⟩)
                | .ok (some receipt) =>
                  if receipt.status = 0 then
                    (.error ("CREATE2 deployment failed on " ++ chain.name), some ⟨gasLimit, gasPrice⟩)
                  else
                    let address := env.renderAddress
                      (calculateCREATE2Address env.keccak (hexToBytes salt) initCode
                        create2FactoryAddress)
                    (.ok { chain := chain.name, chainId := chain.chainId
                           address := address, txHash := txHash
                           blockNumber := receipt.blockNumber, success := true
                           error := none, salt := some salt
                           profile := options.profile },
                     some ⟨gasLimit, gasPrice⟩)

/-- `deployToChainCREATE2` (`src/sdk/deployer.ts` lines 177-278): the `try`
body with its catch-all `catch`. -/
def deployToChainCREATE2 (env : Create2Env) (chain : ChainConfig)
    (options : DeploymentOptions) : DeploymentResult × Option TxParams :=
  match deployToChainCREATE2Body env chain options with
  | (.ok r, t) => (r, t)
  | (.error msg, t) => (catchFailure chain msg, t)

/-- The settled state of the promise returned by `deployToChainCREATE2`. -/
def deployToChainCREATE2Settle (env : Create2Env) (chain : ChainConfig)
    (options : DeploymentOptions) : Outcome :=
  .fulfilled (deployToChainCREATE2 env chain options).1

/-- The `errorResult` built for a rejected settlement
(`deployer.ts` lines 317-325 and 387-395):
`error: result.reason?.message || String(result.reason)`. -/
def unknownFailure (message : Option String) (asString : String) : DeploymentResult :=
  { chain := "Unknown", chainId := 0, address := "0x0", txHash := ""
    blockNumber := 0, success := false
    error := some (jsOrString message asString), salt := none, profile := none }

/-- The `DeploymentResult` a settled outcome contributes to the collected
results: the fulfilled value, or `unknownFailure` for a rejection. -/
def settleToResult : Outcome → DeploymentResult
  | .fulfilled r => r
  | .rejected m s => unknownFailure m s

/-- The result-processing loop shared verbatim by both parallel dispatchers
(`deployer.ts` lines 300-329 and 370-399): push each settled outcome's
result and bump the matching counter. -/
def collectSettled : List Outcome → List DeploymentResult × Nat × Nat
  | [] => ([], 0, 0)
  | o :: rest =>
    let (rs, succ, fail) := collectSettled rest
    match o with
    | .fulfilled r =>
      (r :: rs, (if r.success then succ + 1 else succ), (if r.success then fail else fail + 1))
    | .rejected m s => (unknownFailure m s :: rs, succ, fail + 1)

/-- `Object.fromEntries` key semantics: insertion order with a later entry
overwriting the value stored for an existing key. -/
def jsFromEntries (entries : List (String × String)) : List (String × String) :=
  entries.foldl
    (fun acc kv =>
      if acc.any (fun p => p.1 = kv.1) then
        acc.map (fun p => if p.1 = kv.1 then (p.1, kv.2) else p)
      else acc ++ [kv])
    []

/-- Aggregate construction shared by both dispatchers (`deployer.ts`
lines 297-345 and 367-415): process the settled outcomes (delivered by
`Promise.allSettled` in input order), then build the summary from the
`success = true` records only. -/
def processSettled (chains : List ChainConfig) (settled : List Outcome) :
    ParallelDeploymentResult :=
  let (deploymentResults, successful, failed) := collectSettled settled
  let successfulDeployments := deploymentResults.filter (fun r => r.success)
  { total := chains.length
    successful := successful
    failed := failed
    results := deploymentResults
    summary :=
      { chains := successfulDeployments.map (fun r => r.chain)
        addresses := jsFromEntries (successfulDeployments.map (fun r => (r.chain, r.address)))
        totalGasUsed := "N/A (parallel deployment)" } }

/-- `deployToChainsParallel` (`src/sdk/deployer.ts` lines 283-346).
`perChain` gives the settled state of each chain's deployment promise
(`async (chain) => this.deployToChain(contractPath, chain, options)`); for
the engine's own composition it is `deployToChainSettle`, but the dispatcher
handles an arbitrary settlement, including rejection.  `Promise.allSettled`
yields the outcomes in input order regardless of completion order. -/
def deployToChainsParallel (perChain : ChainConfig → Outcome)
    (chains : List ChainConfig) : ParallelDeploymentResult :=
  processSettled chains (chains.map perChain)

/-- `deployToChainsCREATE2Parallel` (`src/sdk/deployer.ts` lines 351-416):
textually the same dispatch/collect/summarise block as
`deployToChainsParallel`, over the CREATE2 per-chain deployer. -/
def deployToChainsCREATE2Parallel (perChain : ChainConfig → Outcome)
    (chains : List ChainConfig) : ParallelDeploymentResult :=
  processSettled chains (chains.map perChain)

/-- `DeploymentRecord` from `src/sdk/manifest.ts`. -/
structure DeploymentRecord where
  id : String
  timestamp : String
  contractName : String
  contractPath : String
  chain : String
  chainId : Nat
  address : String
  txHash : String
  blockNumber : Nat
  deployer : String
  args : Option (List String)
  salt : Option String
  profile : Option String
deriving DecidableEq

/-- `DeploymentManifest` from `src/sdk/manifest.ts`. -/
structure DeploymentManifest where
  deployments : List DeploymentRecord
  lastUpdated : String
deriving DecidableEq

/-- `generateId` (`src/sdk/manifest.ts` lines 214-217): the first 16 hex
characters of the sha256 digest of `chain-address-txHash`.  `sha256hex` is
node's `crypto` (external). -/
def generateId (sha256hex : String → String)
    (chain address txHash : String) : String :=
  (sha256hex (chain ++ "-" ++ address ++ "-" ++ txHash)).take 16

/-- `addDeployment` (`src/sdk/manifest.ts` lines 57-69).  The record input is
`Omit<DeploymentRecord,'id'>`: its `id` field is ignored and overwritten, as
in `{...record, id: this.generateId(...)}`.  `now` is the timestamp that
`writeManifest` stamps into `lastUpdated`.  Returns the updated store and the
new record. -/
def addDeployment (sha256hex : String → String) (now : String)
    (record : DeploymentRecord) (store : DeploymentManifest) :
    DeploymentManifest × DeploymentRecord :=
  let newRecord :=
    { record with id := generateId sha256hex record.chain record.address record.txHash }
  ({ deployments := store.deployments ++ [newRecord], lastUpdated := now }, newRecord)

/-- `addDeployments` (`src/sdk/manifest.ts` lines 74-86): map `generateId`
over the batch and push all of them. -/
def addDeployments (sha256hex : String → String) (now : String)
    (records : List DeploymentRecord) (store : DeploymentManifest) :
    DeploymentManifest × List DeploymentRecord :=
  let newRecords := records.map fun record =>
    { record with id := generateId sha256hex record.chain record.address record.txHash }
  ({ deployments := store.deployments ++ newRecords, lastUpdated := now }, newRecords)

/-- The merge loop of `importFromFile` (`src/sdk/manifest.ts` lines 200-208):
push each imported record whose `id` is not in the `existingIds` snapshot
(taken once, before the loop), counting the pushes. -/
def importLoop (existingIds : List String) :
    List DeploymentRecord → List DeploymentRecord × Nat
  | [] => ([], 0)
  | d :: rest =>
    if d.id ∈ existingIds then importLoop existingIds rest
    else
      let (tail, n) := importLoop existingIds rest
      (d :: tail, n + 1)

/-- The merge performed by `importFromFile` once the file is read and parsed:
skip records whose id already exists, append the rest, return the count. -/
def importMerge (imported : DeploymentManifest) (now : String)
    (store : DeploymentManifest) : DeploymentManifest × Nat :=
  let existingIds := store.deployments.map (fun d => d.id)
  let (added, importedCount) := importLoop existingIds imported.deployments
  ({ deployments := store.deployments ++ added, lastUpdated := now }, importedCount)

/-- `importFromFile` (`src/sdk/manifest.ts` lines 190-212): a missing file
throws `File not found`; otherwise the parsed manifest is merged by id. -/
def importFromFile (filePath : String) (file : Option DeploymentManifest)
    (now : String) (store : DeploymentManifest) :
    Except String (DeploymentManifest × Nat) :=
  match file with
  | none => .error ("File not found: " ++ filePath)
  | some imported => .ok (importMerge imported now store)

/-! ## Helper lemmas -/

theorem collectSettled_eq (settled : List Outcome) :
    collectSettled settled =
      (settled.map settleToResult,
       (settled.map settleToResult).countP (fun r => r.success),
       (settled.map settleToResult).countP (fun r => !r.success)) := by
  induction settled with
  | nil => simp [collectSettled]
  | cons o rest ih =>
    cases o with
    | fulfilled r =>
      by_cases h : r.success <;>
        simp [collectSettled, ih, settleToResult, List.countP_cons, h]
    | rejected m s =>
      simp [collectSettled, ih, settleToResult, List.countP_cons, unknownFailure]

theorem jsFromEntries_go (l acc : List (String × String))
    (h : ((acc ++ l).map Prod.fst).Nodup) :
    List.foldl
      (fun acc kv =>
        if acc.any (fun p => p.1 = kv.1) then
          acc.map (fun p => if p.1 = kv.1 then (p.1, kv.2) else p)
        else acc ++ [kv])
      acc l = acc ++ l := by
  induction l generalizing acc with
  | nil => simp
  | cons kv rest ih =>
    have hnot : kv.1 ∉ acc.map Prod.fst := by
      rw [List.map_append, List.nodup_append] at h
      exact fun hmem => h.2.2 hmem (by simp)
    have hany : (acc.any (fun p => p.1 = kv.1)) = false := by
      rw [List.any_eq_false]
      intro p hp
      simp only [decide_eq_true_eq]
      exact fun hpk => hnot (hpk ▸ List.mem_map_of_mem Prod.fst hp)
    have hstep :
        (if acc.any (fun p => p.1 = kv.1) then
          acc.map (fun p => if p.1 = kv.1 then (p.1, kv.2) else p)
        else acc ++ [kv]) = acc ++ [kv] := by
      rw [hany]; rfl
    rw [List.foldl_cons, hstep, ih (acc ++ [kv]) (by simpa using h)]
    simp

theorem jsFromEntries_of_nodup (l : List (String × String))
    (h : (l.map Prod.fst).Nodup) : jsFromEntries l = l := by
  simpa using jsFromEntries_go l [] (by simpa using h)

theorem countP_success_add_not (l : List DeploymentResult) :
    l.countP (fun r => r.success) + l.countP (fun r => !r.success) = l.length := by
  have := List.length_eq_countP_add_countP (fun r : DeploymentResult => r.success) l
  simpa using this.symm

theorem importLoop_eq (existingIds : List String) (l : List DeploymentRecord) :
    importLoop existingIds l =
      (l.filter (fun d => decide (d.id ∉ existingIds)),
       (l.filter (fun d => decide (d.id ∉ existingIds))).length) := by
  induction l with
  | nil => simp [importLoop]
  | cons d rest ih =>
    by_cases h : d.id ∈ existingIds <;>
      simp [importLoop, ih, List.filter_cons, h]

/-! ## Claim theorems -/

/-- C1: for every input list of N chain configs and every combination of
per-target settled outcomes (success, captured failure, or rejected
promise), `deployToChainsParallel` and `deployToChainsCREATE2Parallel`
return a results sequence that is exactly the input chains mapped, in input
order, to the result of their own settled outcome — hence exactly N results
mirroring the input chain order, not completion order. -/
theorem claimC1_parallel_results_mirror_target_order
    (perChain : ChainConfig → Outcome) (chains : List ChainConfig) :
    (deployToChainsParallel perChain chains).results
        = chains.map (fun c => settleToResult (perChain c))
      ∧ (deployToChainsParallel perChain chains).results.length = chains.length
      ∧ (deployToChainsCREATE2Parallel perChain chains).results
          = chains.map (fun c => settleToResult (perChain c))
      ∧ (deployToChainsCREATE2Parallel perChain chains).results.length = chains.length := by
  have hres :
      (processSettled chains (chains.map perChain)).results
        = chains.map (fun c => settleToResult (perChain c)) := by
    simp [processSettled, collectSettled_eq, List.map_map, Function.comp_def]
  refine ⟨hres, ?_, hres, ?_⟩ <;>
    simp [deployToChainsParallel, deployToChainsCREATE2Parallel, hres]

/-- C2: `calculateCREATE2Address` applied to the init payload built by
`createDeployBytecode` (creation bytecode ∥ ABI-encoded constructor
arguments, in that order) equals the spec-worded derivation: the last 20
bytes of `keccak256(0xff ∥ proxyAddress ∥ salt ∥ keccak256(initPayload))`.
It is a pure function of the hash and the three byte-sequence inputs (no
network parameter exists), and a 32-byte hash output makes the result
exactly 20 bytes long. -/
theorem claimC2_create2_address_derivation
    (keccak : List Nat → List Nat)
    (salt bytecode constructorArgs proxyAddress : List Nat) :
    calculateCREATE2Address keccak salt
        (createDeployBytecode bytecode constructorArgs) proxyAddress
      = specCreate2Address keccak salt (bytecode ++ constructorArgs) proxyAddress
    ∧ ((keccak ([255] ++ proxyAddress ++ salt
          ++ keccak (bytecode ++ constructorArgs))).length = 32 →
        (calculateCREATE2Address keccak salt
            (createDeployBytecode bytecode constructorArgs) proxyAddress).length = 20) := by
  constructor
  · simp [calculateCREATE2Address, specCreate2Address, lastBytes, createDeployBytecode,
      List.append_assoc]
  · intro h
    have harg : (255 :: (proxyAddress ++ (salt ++ keccak (bytecode ++ constructorArgs))))
        = [255] ++ proxyAddress ++ salt ++ keccak (bytecode ++ constructorArgs) := by
      simp [List.append_assoc]
    simp only [calculateCREATE2Address, createDeployBytecode, harg, h, List.length_drop]

/-- C2 witness: concrete evaluation with a 32-byte stand-in hash. -/
theorem claimC2_create2_address_derivation_witness :
    ((fun _ => List.range 32) ([255] ++ List.replicate 20 3 ++ List.replicate 32 1
        ++ (fun _ => List.range 32) ([0, 1] ++ [2])) : List Nat).length = 32
    ∧ (calculateCREATE2Address (fun _ => List.range 32) (List.replicate 32 1)
        (createDeployBytecode [0, 1] [2]) (List.replicate 20 3)).length = 20 :=
  ⟨by decide,
   (claimC2_create2_address_derivation (fun _ => List.range 32) (List.replicate 32 1)
      [0, 1] [2] (List.replicate 20 3)).2 (by decide)⟩

theorem insufficientFundsMsg_tag (name : String) (req bal : Nat) :
    ∃ rest, insufficientFundsMsg name req bal = "Insufficient funds" ++ rest := by
  refine ⟨" on " ++ name ++ ". Required: " ++ formatEther req ++ " ETH, Balance: "
    ++ formatEther bal ++ " ETH", ?_⟩
  rw [insufficientFundsMsg,
    show ("Insufficient funds on " : String) = "Insufficient funds" ++ " on " from by decide]
  simp only [String.append_assoc]

/-- C3: in both single-target modes, once the run reaches the balance guard
(artifact compiled, key resolved, wallet built, fee data resolved) with
`balance < gasLimit * gasPrice`, the call returns the captured
failure result carrying the `Insufficient funds`-tagged message that reports
required versus available funds, and no transaction is submitted (the
recorded submission is `none`). -/
theorem claimC3_insufficient_funds_blocks_submission :
    (∀ (env : DirectEnv) (chain : ChainConfig) (options : DeploymentOptions)
        (artifact : Artifact) (pk walletAddr : String) (balance : Nat),
      env.compile = Except.ok artifact →
      resolvePrivateKey options.privateKey env.envPrivateKey = some pk →
      env.wallet = Except.ok walletAddr →
      env.getBalance = Except.ok balance →
      balance < (estimateGas env.gasEstimateCall env.feeData).1
          * (estimateGas env.gasEstimateCall env.feeData).2 →
      deployToChain env chain options
          = (catchFailure chain (insufficientFundsMsg chain.name
              ((estimateGas env.gasEstimateCall env.feeData).1
                * (estimateGas env.gasEstimateCall env.feeData).2) balance), none)
        ∧ (catchFailure chain (insufficientFundsMsg chain.name
              ((estimateGas env.gasEstimateCall env.feeData).1
                * (estimateGas env.gasEstimateCall env.feeData).2) balance)).success = false
        ∧ ∃ rest, insufficientFundsMsg chain.name
              ((estimateGas env.gasEstimateCall env.feeData).1
                * (estimateGas env.gasEstimateCall env.feeData).2) balance
            = "Insufficient funds" ++ rest)
    ∧ (∀ (env : Create2Env) (chain : ChainConfig) (options : DeploymentOptions)
        (artifact : Artifact) (pk walletAddr : String) (feeData : FeeData) (balance : Nat),
      env.compile = Except.ok artifact →
      resolvePrivateKey options.privateKey env.envPrivateKey = some pk →
      env.wallet = Except.ok walletAddr →
      env.feeData = Except.ok feeData →
      env.getBalance = Except.ok balance →
      balance < create2GasLimit env.gasEstimateCall * create2GasPrice feeData →
      deployToChainCREATE2 env chain options
          = (catchFailure chain (insufficientFundsMsg chain.name
              (create2GasLimit env.gasEstimateCall * create2GasPrice feeData) balance), none)
        ∧ (catchFailure chain (insufficientFundsMsg chain.name
              (create2GasLimit env.gasEstimateCall * create2GasPrice feeData) balance)).success
            = false
        ∧ ∃ rest, insufficientFundsMsg chain.name
              (create2GasLimit env.gasEstimateCall * create2GasPrice feeData) balance
            = "Insufficient funds" ++ rest) := by
  constructor
  · intro env chain options artifact pk walletAddr balance h1 h2 h3 h4 h5
    rcases hg : estimateGas env.gasEstimateCall env.feeData with ⟨gl, gp⟩
    rw [hg] at h5
    simp only at h5
    have hbody : deployToChainBody env chain options
        = (.error (insufficientFundsMsg chain.name (gl * gp) balance), none) := by
      simp [deployToChainBody, h1, h2, h3, h4, hg, h5]
    refine ⟨?_, rfl, ?_⟩
    · show deployToChain env chain options
        = (catchFailure chain (insufficientFundsMsg chain.name (gl * gp) balance), none)
      simp only [deployToChain, hbody]
    · show ∃ rest, insufficientFundsMsg chain.name (gl * gp) balance
        = "Insufficient funds" ++ rest
      exact insufficientFundsMsg_tag chain.name (gl * gp) balance
  · intro env chain options artifact pk walletAddr feeData balance h1 h2 h3 h4 h5 h6
    have hbody : deployToChainCREATE2Body env chain options
        = (.error (insufficientFundsMsg chain.name
            (create2GasLimit env.gasEstimateCall * create2GasPrice feeData) balance), none) := by
      simp [deployToChainCREATE2Body, h1, h2, h3, h4, h5, h6]
    refine ⟨?_, rfl, ?_⟩
    · simp only [deployToChainCREATE2, hbody]
    · exact insufficientFundsMsg_tag chain.name _ balance

/-- C3 witness: concrete runs of both modes against a drained signer. -/
theorem claimC3_insufficient_funds_blocks_submission_witness :
    ((⟨Except.ok ⟨⟨none⟩, [7], "Box"⟩, some "key", Except.ok "0xw", Except.error "down",
        Except.error "down", Except.ok 5, Except.error "x", Except.error "x"⟩ : DirectEnv).compile
      = Except.ok ⟨⟨none⟩, [7], "Box"⟩)
    ∧ (deployToChain
        ⟨Except.ok ⟨⟨none⟩, [7], "Box"⟩, some "key", Except.ok "0xw", Except.error "down",
          Except.error "down", Except.ok 5, Except.error "x", Except.error "x"⟩
        ⟨"nova", "url", 9, none⟩ ⟨"", [], none, none, none, none, none⟩).2 = none
    ∧ (deployToChainCREATE2
        ⟨Except.ok ⟨⟨none⟩, [7], "Box"⟩, some "key", Except.ok "0xw", (fun _ _ => []),
          (fun _ => List.range 32), (fun _ => "0xa"), Except.error "down",
          Except.ok ⟨none, some 1⟩, Except.ok 3, Except.error "x", Except.error "x"⟩
        ⟨"nova", "url", 9, none⟩ ⟨"", [], none, none, none, none, none⟩).2 = none := by
  have hd := (claimC3_insufficient_funds_blocks_submission.1
    ⟨Except.ok ⟨⟨none⟩, [7], "Box"⟩, some "key", Except.ok "0xw", Except.error "down",
      Except.error "down", Except.ok 5, Except.error "x", Except.error "x"⟩
    ⟨"nova", "url", 9, none⟩ ⟨"", [], none, none, none, none, none⟩
    ⟨⟨none⟩, [7], "Box"⟩ "key" "0xw" 5 rfl (by decide) rfl rfl (by decide)).1
  have hc := (claimC3_insufficient_funds_blocks_submission.2
    ⟨Except.ok ⟨⟨none⟩, [7], "Box"⟩, some "key", Except.ok "0xw", (fun _ _ => []),
      (fun _ => List.range 32), (fun _ => "0xa"), Except.error "down",
      Except.ok ⟨none, some 1⟩, Except.ok 3, Except.error "x", Except.error "x"⟩
    ⟨"nova", "url", 9, none⟩ ⟨"", [], none, none, none, none, none⟩
    ⟨⟨none⟩, [7], "Box"⟩ "key" "0xw" ⟨none, some 1⟩ 3 rfl (by decide) rfl rfl rfl (by decide)).1
  exact ⟨rfl, by rw [hd], by rw [hc]⟩

/-- C4 (amended): every exit path of both single-target deployers settles as
a fulfilled `DeploymentResult`; no condition at all propagates as a rejected
call — whenever the body throws (including the missing-signing-key check,
which sits inside the `try`), the error is captured into a failure-shaped
result with `success = false` and the thrown message. -/
theorem claimC4_every_exit_returns_result :
    (∀ (env : DirectEnv) (chain : ChainConfig) (options : DeploymentOptions),
      (∃ r, deployToChainSettle env chain options = Outcome.fulfilled r)
      ∧ ∀ msg, (deployToChainBody env chain options).1 = Except.error msg →
          deployToChainSettle env chain options
              = Outcome.fulfilled (catchFailure chain msg)
            ∧ (catchFailure chain msg).success = false
            ∧ (catchFailure chain msg).error = some msg)
    ∧ (∀ (env : Create2Env) (chain : ChainConfig) (options : DeploymentOptions),
      (∃ r, deployToChainCREATE2Settle env chain options = Outcome.fulfilled r)
      ∧ ∀ msg, (deployToChainCREATE2Body env chain options).1 = Except.error msg →
          deployToChainCREATE2Settle env chain options
              = Outcome.fulfilled (catchFailure chain msg)
            ∧ (catchFailure chain msg).success = false
            ∧ (catchFailure chain msg).error = some msg) := by
  constructor
  · intro env chain options
    refine ⟨⟨(deployToChain env chain options).1, rfl⟩, ?_⟩
    intro msg h
    rcases hb : deployToChainBody env chain options with ⟨e, t⟩
    rw [hb] at h
    simp only at h
    subst h
    exact ⟨by simp [deployToChainSettle, deployToChain, hb], rfl, rfl⟩
  · intro env chain options
    refine ⟨⟨(deployToChainCREATE2 env chain options).1, rfl⟩, ?_⟩
    intro msg h
    rcases hb : deployToChainCREATE2Body env chain options with ⟨e, t⟩
    rw [hb] at h
    simp only at h
    subst h
    exact ⟨by simp [deployToChainCREATE2Settle, deployToChainCREATE2, hb], rfl, rfl⟩

/-- C4 witness: a thrown compile error in each mode is captured into a
fulfilled failure result. -/
theorem claimC4_every_exit_returns_result_witness :
    ((deployToChainBody ⟨Except.error "boom", none, Except.error "", Except.error "",
        Except.error "", Except.error "", Except.error "", Except.error ""⟩
        ⟨"alpha", "url", 1, none⟩ ⟨"", [], none, none, none, none, none⟩).1
      = Except.error "boom")
    ∧ deployToChainSettle ⟨Except.error "boom", none, Except.error "", Except.error "",
        Except.error "", Except.error "", Except.error "", Except.error ""⟩
        ⟨"alpha", "url", 1, none⟩ ⟨"", [], none, none, none, none, none⟩
      = Outcome.fulfilled (catchFailure ⟨"alpha", "url", 1, none⟩ "boom") :=
  ⟨by decide,
   ((claimC4_every_exit_returns_result.1
      ⟨Except.error "boom", none, Except.error "", Except.error "", Except.error "",
        Except.error "", Except.error "", Except.error ""⟩
      ⟨"alpha", "url", 1, none⟩ ⟨"", [], none, none, none, none, none⟩).2
      "boom" (by decide)).1⟩

/-- C4 counterexample: with no signing key available at all (no
`options.privateKey` and no `PRIVATE_KEY` in the environment) the call does
NOT propagate a rejection — the throw at `deployer.ts` line 113 sits inside
the `try`, so the promise fulfills with a captured failure result. -/
theorem claimC4_counterexample :
    deployToChainSettle ⟨Except.ok ⟨⟨none⟩, [7], "Box"⟩, none, Except.ok "w",
        Except.error "e", Except.error "e", Except.error "e", Except.error "e",
        Except.error "e"⟩
        ⟨"alpha", "url", 1, none⟩ ⟨"", [], none, none, none, none, none⟩
      = Outcome.fulfilled (catchFailure ⟨"alpha", "url", 1, none⟩
          "Private key is required. Set PRIVATE_KEY env var or use --privateKey flag.")
    ∧ ∀ m s, deployToChainSettle ⟨Except.ok ⟨⟨none⟩, [7], "Box"⟩, none, Except.ok "w",
        Except.error "e", Except.error "e", Except.error "e", Except.error "e",
        Except.error "e"⟩
        ⟨"alpha", "url", 1, none⟩ ⟨"", [], none, none, none, none, none⟩
      ≠ Outcome.rejected m s := by
  have h1 : deployToChainSettle ⟨Except.ok ⟨⟨none⟩, [7], "Box"⟩, none, Except.ok "w",
      Except.error "e", Except.error "e", Except.error "e", Except.error "e",
      Except.error "e"⟩
      ⟨"alpha", "url", 1, none⟩ ⟨"", [], none, none, none, none, none⟩
    = Outcome.fulfilled (catchFailure ⟨"alpha", "url", 1, none⟩
        "Private key is required. Set PRIVATE_KEY env var or use --privateKey flag.") := by
    decide
  exact ⟨h1, fun m s hc => Outcome.noConfusion (h1 ▸ hc)⟩

/-- C5 (amended): a compilation error is NOT raised before dispatch — each
per-target deployment compiles independently inside its own error capture,
so when the artifact provider fails with `msg` on every target the parallel
request still returns an aggregate in which every target's result is the
captured compilation failure, `successful = 0` and `failed = total = N`. -/
theorem claimC5_compile_error_captured_per_target
    (envs : ChainConfig → DirectEnv) (options : DeploymentOptions)
    (chains : List ChainConfig) (msg : String)
    (h : ∀ c, (envs c).compile = Except.error msg) :
    (deployToChainsParallel
        (fun c => deployToChainSettle (envs c) c options) chains).results
        = chains.map (fun c => catchFailure c msg)
      ∧ (deployToChainsParallel
          (fun c => deployToChainSettle (envs c) c options) chains).successful = 0
      ∧ (deployToChainsParallel
          (fun c => deployToChainSettle (envs c) c options) chains).failed = chains.length
      ∧ (deployToChainsParallel
          (fun c => deployToChainSettle (envs c) c options) chains).total = chains.length := by
  have hone : ∀ c, settleToResult (deployToChainSettle (envs c) c options)
      = catchFailure c msg := by
    intro c
    simp [deployToChainSettle, settleToResult, deployToChain, deployToChainBody, h c]
  have hmaps : (chains.map (fun c => deployToChainSettle (envs c) c options)).map settleToResult
      = chains.map (fun c => catchFailure c msg) := by
    simp [List.map_map, Function.comp_def, hone]
  have hres : (deployToChainsParallel
      (fun c => deployToChainSettle (envs c) c options) chains).results
      = chains.map (fun c => catchFailure c msg) := by
    simp [deployToChainsParallel, processSettled, collectSettled_eq, hmaps]
  refine ⟨hres, ?_, ?_, rfl⟩
  · simp only [deployToChainsParallel, processSettled, collectSettled_eq, hmaps]
    rw [List.countP_eq_zero]
    intro r hr
    rcases List.mem_map.mp hr with ⟨c, _, rfl⟩
    simp [catchFailure]
  · simp only [deployToChainsParallel, processSettled, collectSettled_eq, hmaps]
    have hall : (chains.map (fun c => catchFailure c msg)).countP (fun r => !r.success)
        = (chains.map (fun c => catchFailure c msg)).length := by
      rw [List.countP_eq_length]
      intro r hr
      rcases List.mem_map.mp hr with ⟨c, _, rfl⟩
      simp [catchFailure]
    simp [hall]

/-- C5 witness: two targets, one broken artifact — the request completes
with two captured per-target compilation failures. -/
theorem claimC5_compile_error_captured_per_target_witness :
    (∀ c : ChainConfig,
      ((fun _ : ChainConfig => (⟨Except.error "Compilation error: expected pragma", none,
          Except.error "", Except.error "", Except.error "", Except.error "",
          Except.error "", Except.error ""⟩ : DirectEnv)) c).compile
        = Except.error "Compilation error: expected pragma")
    ∧ (deployToChainsParallel
        (fun c => deployToChainSettle
          ((fun _ : ChainConfig => (⟨Except.error "Compilation error: expected pragma", none,
            Except.error "", Except.error "", Except.error "", Except.error "",
            Except.error "", Except.error ""⟩ : DirectEnv)) c)
          c ⟨"", [], none, none, none, none, none⟩)
        [⟨"alpha", "urlA", 1, none⟩, ⟨"beta", "urlB", 2, none⟩]).results
      = [⟨"alpha", "urlA", 1, none⟩, ⟨"beta", "urlB", 2, none⟩].map
          (fun c => catchFailure c "Compilation error: expected pragma") :=
  ⟨fun _ => rfl,
   (claimC5_compile_error_captured_per_target
      (fun _ => ⟨Except.error "Compilation error: expected pragma", none,
        Except.error "", Except.error "", Except.error "", Except.error "",
        Except.error "", Except.error ""⟩)
      ⟨"", [], none, none, none, none, none⟩
      [⟨"alpha", "urlA", 1, none⟩, ⟨"beta", "urlB", 2, none⟩]
      "Compilation error: expected pragma" (fun _ => rfl)).1⟩

/-- C5 counterexample: with a failing artifact provider on both targets the
whole request does NOT fail before dispatch — it returns an aggregate whose
individual per-target results each capture the compilation error message
(`success = false`), with `successful = 0`, `failed = 2`, `total = 2`. -/
theorem claimC5_counterexample :
    (deployToChainsParallel
        (fun c => deployToChainSettle
          ⟨Except.error "Compilation error: expected pragma", none, Except.error "",
            Except.error "", Except.error "", Except.error "", Except.error "",
            Except.error ""⟩
          c ⟨"", [], none, none, none, none, none⟩)
        [⟨"alpha", "urlA", 1, none⟩, ⟨"beta", "urlB", 2, none⟩]).results
      = [catchFailure ⟨"alpha", "urlA", 1, none⟩ "Compilation error: expected pragma",
         catchFailure ⟨"beta", "urlB", 2, none⟩ "Compilation error: expected pragma"]
    ∧ (deployToChainsParallel
        (fun c => deployToChainSettle
          ⟨Except.error "Compilation error: expected pragma", none, Except.error "",
            Except.error "", Except.error "", Except.error "", Except.error "",
            Except.error ""⟩
          c ⟨"", [], none, none, none, none, none⟩)
        [⟨"alpha", "urlA", 1, none⟩, ⟨"beta", "urlB", 2, none⟩]).successful = 0
    ∧ (deployToChainsParallel
        (fun c => deployToChainSettle
          ⟨Except.error "Compilation error: expected pragma", none, Except.error "",
            Except.error "", Except.error "", Except.error "", Except.error "",
            Except.error ""⟩
          c ⟨"", [], none, none, none, none, none⟩)
        [⟨"alpha", "urlA", 1, none⟩, ⟨"beta", "urlB", 2, none⟩]).failed = 2
    ∧ (deployToChainsParallel
        (fun c => deployToChainSettle
          ⟨Except.error "Compilation error: expected pragma", none, Except.error "",
            Except.error "", Except.error "", Except.error "", Except.error "",
            Except.error ""⟩
          c ⟨"", [], none, none, none, none, none⟩)
        [⟨"alpha", "urlA", 1, none⟩, ⟨"beta", "urlB", 2, none⟩]).total = 2 := by
  refine ⟨by decide, by decide, by decide, by decide⟩

/-- C6: every parallel deployment over N targets reports `total = N` and
`successful + failed = N`; the `addresses` map is built from exactly the
`success = true` results (their `(chain, address)` pairs, deduplicated with
JavaScript object-key semantics), and when the successful results carry
distinct chain names — target names are unique keys — the map has exactly
one entry per successful result, in order. -/
theorem claimC6_aggregate_counts_and_address_map
    (perChain : ChainConfig → Outcome) (chains : List ChainConfig) :
    (deployToChainsParallel perChain chains).total = chains.length
    ∧ (deployToChainsParallel perChain chains).successful
        + (deployToChainsParallel perChain chains).failed = chains.length
    ∧ (deployToChainsParallel perChain chains).summary.addresses
        = jsFromEntries (((deployToChainsParallel perChain chains).results.filter
            (fun r => r.success)).map (fun r => (r.chain, r.address)))
    ∧ ((((deployToChainsParallel perChain chains).results.filter
          (fun r => r.success)).map (fun r => r.chain)).Nodup →
        (deployToChainsParallel perChain chains).summary.addresses
          = ((deployToChainsParallel perChain chains).results.filter
              (fun r => r.success)).map (fun r => (r.chain, r.address))) := by
  refine ⟨rfl, ?_, ?_, ?_⟩
  · simp only [deployToChainsParallel, processSettled, collectSettled_eq]
    rw [countP_success_add_not]
    simp
  · simp only [deployToChainsParallel, processSettled, collectSettled_eq]
  · intro hnd
    simp only [deployToChainsParallel, processSettled, collectSettled_eq] at hnd ⊢
    refine jsFromEntries_of_nodup _ ?_
    simpa [List.map_map, Function.comp_def] using hnd

/-- C6 witness: three targets, one with insufficient funds — `total = 3`,
`successful = 2`, `failed = 1`, and the address map has exactly the two
successful entries. -/
theorem claimC6_aggregate_counts_and_address_map_witness :
    ((((deployToChainsParallel
        (fun c => deployToChainSettle
          ⟨Except.ok ⟨⟨none⟩, [7], "Box"⟩, some "k", Except.ok "w", Except.error "down",
            Except.error "down", Except.ok (if c.name = "beta" then 0 else 10 ^ 18),
            Except.ok ⟨some "0xth", Except.ok "0xsame"⟩, Except.ok (some ⟨1, 5⟩)⟩
          c ⟨"", [], none, none, none, none, none⟩)
        [⟨"alpha", "u", 1, none⟩, ⟨"beta", "u", 2, none⟩, ⟨"gamma", "u", 3, none⟩]).results.filter
          (fun r => r.success)).map (fun r => r.chain)).Nodup)
    ∧ ((deployToChainsParallel
        (fun c => deployToChainSettle
          ⟨Except.ok ⟨⟨none⟩, [7], "Box"⟩, some "k", Except.ok "w", Except.error "down",
            Except.error "down", Except.ok (if c.name = "beta" then 0 else 10 ^ 18),
            Except.ok ⟨some "0xth", Except.ok "0xsame"⟩, Except.ok (some ⟨1, 5⟩)⟩
          c ⟨"", [], none, none, none, none, none⟩)
        [⟨"alpha", "u", 1, none⟩, ⟨"beta", "u", 2, none⟩, ⟨"gamma", "u", 3, none⟩]).summary.addresses
      = (((deployToChainsParallel
          (fun c => deployToChainSettle
            ⟨Except.ok ⟨⟨none⟩, [7], "Box"⟩, some "k", Except.ok "w", Except.error "down",
              Except.error "down", Except.ok (if c.name = "beta" then 0 else 10 ^ 18),
              Except.ok ⟨some "0xth", Except.ok "0xsame"⟩, Except.ok (some ⟨1, 5⟩)⟩
            c ⟨"", [], none, none, none, none, none⟩)
          [⟨"alpha", "u", 1, none⟩, ⟨"beta", "u", 2, none⟩, ⟨"gamma", "u", 3, none⟩]).results.filter
            (fun r => r.success)).map (fun r => (r.chain, r.address))))
    ∧ ((deployToChainsParallel
        (fun c => deployToChainSettle
          ⟨Except.ok ⟨⟨none⟩, [7], "Box"⟩, some "k", Except.ok "w", Except.error "down",
            Except.error "down", Except.ok (if c.name = "beta" then 0 else 10 ^ 18),
            Except.ok ⟨some "0xth", Except.ok "0xsame"⟩, Except.ok (some ⟨1, 5⟩)⟩
          c ⟨"", [], none, none, none, none, none⟩)
        [⟨"alpha", "u", 1, none⟩, ⟨"beta", "u", 2, none⟩, ⟨"gamma", "u", 3, none⟩]).total = 3
      ∧ (deployToChainsParallel
          (fun c => deployToChainSettle
            ⟨Except.ok ⟨⟨none⟩, [7], "Box"⟩, some "k", Except.ok "w", Except.error "down",
              Except.error "down", Except.ok (if c.name = "beta" then 0 else 10 ^ 18),
              Except.ok ⟨some "0xth", Except.ok "0xsame"⟩, Except.ok (some ⟨1, 5⟩)⟩
            c ⟨"", [], none, none, none, none, none⟩)
          [⟨"alpha", "u", 1, none⟩, ⟨"beta", "u", 2, none⟩, ⟨"gamma", "u", 3, none⟩]).successful = 2
      ∧ (deployToChainsParallel
          (fun c => deployToChainSettle
            ⟨Except.ok ⟨⟨none⟩, [7], "Box"⟩, some "k", Except.ok "w", Except.error "down",
              Except.error "down", Except.ok (if c.name = "beta" then 0 else 10 ^ 18),
              Except.ok ⟨some "0xth", Except.ok "0xsame"⟩, Except.ok (some ⟨1, 5⟩)⟩
            c ⟨"", [], none, none, none, none, none⟩)
          [⟨"alpha", "u", 1, none⟩, ⟨"beta", "u", 2, none⟩, ⟨"gamma", "u", 3, none⟩]).failed = 1
      ∧ ((deployToChainsParallel
          (fun c => deployToChainSettle
            ⟨Except.ok ⟨⟨none⟩, [7], "Box"⟩, some "k", Except.ok "w", Except.error "down",
              Except.error "down", Except.ok (if c.name = "beta" then 0 else 10 ^ 18),
              Except.ok ⟨some "0xth", Except.ok "0xsame"⟩, Except.ok (some ⟨1, 5⟩)⟩
            c ⟨"", [], none, none, none, none, none⟩)
          [⟨"alpha", "u", 1, none⟩, ⟨"beta", "u", 2, none⟩,
            ⟨"gamma", "u", 3, none⟩]).summary.addresses).length = 2) :=
  ⟨by decide,
   (claimC6_aggregate_counts_and_address_map
      (fun c => deployToChainSettle
        ⟨Except.ok ⟨⟨none⟩, [7], "Box"⟩, some "k", Except.ok "w", Except.error "down",
          Except.error "down", Except.ok (if c.name = "beta" then 0 else 10 ^ 18),
          Except.ok ⟨some "0xth", Except.ok "0xsame"⟩, Except.ok (some ⟨1, 5⟩)⟩
        c ⟨"", [], none, none, none, none, none⟩)
      [⟨"alpha", "u", 1, none⟩, ⟨"beta", "u", 2, none⟩,
        ⟨"gamma", "u", 3, none⟩]).2.2.2 (by decide),
   by decide⟩

/-- C7 (amended): the direct-mode fee estimator `estimateGas` never
propagates an error from the network calls — a failed gas estimate, a failed
fee-data call, or fee data with no truthy fee field all collapse to the
fixed defaults `(gasLimit = 3000000, gasPrice = 0.1 gwei)`.  The CREATE2
path does NOT use these defaults: a failed gas-estimate call is replaced by
a raw `5000000` estimate, giving `gasLimit = 6500000`, and a failed
fee-data call there propagates to the per-target catch, so that target's
deployment is not attempted. -/
theorem claimC7_fee_estimation_fallback :
    (∀ (estimateCall : Except String Nat) (feeDataCall : Except String FeeData),
      ((∃ e, estimateCall = Except.error e) ∨ (∃ e, feeDataCall = Except.error e)
        ∨ (∃ fd, feeDataCall = Except.ok fd ∧ jsTruthyNat fd.maxFeePerGas = none
            ∧ jsTruthyNat fd.gasPrice = none)) →
      estimateGas estimateCall feeDataCall = (3000000, gwei01))
    ∧ (∀ e, create2GasLimit (Except.error e) = 6500000)
    ∧ (∀ (env : Create2Env) (chain : ChainConfig) (options : DeploymentOptions)
        (artifact : Artifact) (pk walletAddr msg : String),
      env.compile = Except.ok artifact →
      resolvePrivateKey options.privateKey env.envPrivateKey = some pk →
      env.wallet = Except.ok walletAddr →
      env.feeData = Except.error msg →
      deployToChainCREATE2 env chain options = (catchFailure chain msg, none)) := by
  refine ⟨?_, fun e => by show (5000000 * 12 / 10 + 500000 : Nat) = 6500000; rfl, ?_⟩
  · intro estimateCall feeDataCall hcase
    rcases hcase with ⟨e, rfl⟩ | ⟨e, rfl⟩ | ⟨fd, rfl, hmf, hgp⟩
    · rfl
    · cases estimateCall <;> rfl
    · cases estimateCall with
      | error e => rfl
      | ok g => simp [estimateGas, hmf, hgp]
  · intro env chain options artifact pk walletAddr msg h1 h2 h3 h4
    simp [deployToChainCREATE2, deployToChainCREATE2Body, h1, h2, h3, h4]

/-- C7 witness: concrete error conditions hitting the defaults in
`estimateGas` and the divergent CREATE2 behaviours. -/
theorem claimC7_fee_estimation_fallback_witness :
    ((∃ e, (Except.error "timeout" : Except String Nat) = Except.error e)
      ∧ estimateGas (Except.error "timeout") (Except.ok ⟨none, some 5⟩) = (3000000, gwei01))
    ∧ create2GasLimit (Except.error "timeout") = 6500000
    ∧ ((⟨Except.ok ⟨⟨none⟩, [7], "Box"⟩, some "k", Except.ok "w", (fun _ _ => []),
          (fun _ => List.range 32), (fun _ => "0xa"), Except.ok 100, Except.error "feedown",
          Except.ok 0, Except.error "x", Except.error "x"⟩ : Create2Env).feeData
        = Except.error "feedown"
      ∧ deployToChainCREATE2
          ⟨Except.ok ⟨⟨none⟩, [7], "Box"⟩, some "k", Except.ok "w", (fun _ _ => []),
            (fun _ => List.range 32), (fun _ => "0xa"), Except.ok 100, Except.error "feedown",
            Except.ok 0, Except.error "x", Except.error "x"⟩
          ⟨"nova", "url", 9, none⟩ ⟨"", [], none, none, none, none, none⟩
        = (catchFailure ⟨"nova", "url", 9, none⟩ "feedown", none)) :=
  ⟨⟨⟨"timeout", rfl⟩,
    claimC7_fee_estimation_fallback.1 (Except.error "timeout") (Except.ok ⟨none, some 5⟩)
      (Or.inl ⟨"timeout", rfl⟩)⟩,
   claimC7_fee_estimation_fallback.2.1 "timeout",
   ⟨rfl,
    claimC7_fee_estimation_fallback.2.2
      ⟨Except.ok ⟨⟨none⟩, [7], "Box"⟩, some "k", Except.ok "w", (fun _ _ => []),
        (fun _ => List.range 32), (fun _ => "0xa"), Except.ok 100, Except.error "feedown",
        Except.ok 0, Except.error "x", Except.error "x"⟩
      ⟨"nova", "url", 9, none⟩ ⟨"", [], none, none, none, none, none⟩
      ⟨⟨none⟩, [7], "Box"⟩ "k" "w" "feedown" rfl (by decide) rfl rfl⟩⟩

/-- C7 counterexample: a CREATE2 deployment whose gas-estimate network call
errors still submits a transaction, with `gasLimit = 6500000` and the
network-reported `gasPrice` — not the fixed defaults
`(3000000, 0.1 gwei)` the claim requires of every fee estimation. -/
theorem claimC7_counterexample :
    (deployToChainCREATE2
        ⟨Except.ok ⟨⟨none⟩, [7], "Box"⟩, some "k", Except.ok "w", (fun _ _ => []),
          (fun _ => List.range 32), (fun _ => "0xa"), Except.error "timeout",
          Except.ok ⟨none, some 2000000000⟩, Except.ok (10 ^ 18), Except.ok "0xth",
          Except.ok (some ⟨1, 5⟩)⟩
        ⟨"nova", "url", 9, none⟩ ⟨"", [], none, none, none, none, none⟩).2
      = some ⟨6500000, 2000000000⟩
    ∧ (deployToChainCREATE2
        ⟨Except.ok ⟨⟨none⟩, [7], "Box"⟩, some "k", Except.ok "w", (fun _ _ => []),
          (fun _ => List.range 32), (fun _ => "0xa"), Except.error "timeout",
          Except.ok ⟨none, some 2000000000⟩, Except.ok (10 ^ 18), Except.ok "0xth",
          Except.ok (some ⟨1, 5⟩)⟩
        ⟨"nova", "url", 9, none⟩ ⟨"", [], none, none, none, none, none⟩).2
      ≠ some ⟨3000000, gwei01⟩ := by
  refine ⟨by decide, by decide⟩

/-- C8 (amended): `estimateGas` (direct mode) replaces any truthy resolved
fee-per-gas below 0.01 gwei with the fixed 0.1 gwei default, and a reported
zero fee also ends up as the 0.1 gwei default (zero is falsy, so it falls
through to the missing-fee-data defaults).  The CREATE2 path substitutes
0.1 gwei only when the reported `gasPrice` is absent or exactly zero; a
nonzero dust fee below 0.01 gwei is used there as reported. -/
theorem claimC8_fee_floor :
    (∀ (g : Nat) (fd : FeeData) (p : Nat),
      jsTruthyNat fd.maxFeePerGas = some p → p < minGasPriceWei →
      estimateGas (Except.ok g) (Except.ok fd) = (g * 120 / 100 + 100000, gwei01))
    ∧ (∀ (g : Nat) (fd : FeeData) (p : Nat),
      jsTruthyNat fd.maxFeePerGas = none → jsTruthyNat fd.gasPrice = some p →
      p < minGasPriceWei →
      estimateGas (Except.ok g) (Except.ok fd) = (g * 120 / 100 + 100000, gwei01))
    ∧ (∀ g : Nat, estimateGas (Except.ok g) (Except.ok ⟨some 0, some 0⟩) = (3000000, gwei01))
    ∧ (∀ mf : Option Nat, create2GasPrice ⟨mf, some 0⟩ = gwei01
        ∧ create2GasPrice ⟨mf, none⟩ = gwei01)
    ∧ (∀ (mf : Option Nat) (p : Nat), p ≠ 0 → create2GasPrice ⟨mf, some p⟩ = p) := by
  refine ⟨?_, ?_, ?_, ?_, ?_⟩
  · intro g fd p hmf hp
    simp [estimateGas, hmf, hp]
  · intro g fd p hmf hgp hp
    simp [estimateGas, hmf, hgp, hp]
  · intro g
    simp [estimateGas, jsTruthyNat]
  · intro mf
    exact ⟨rfl, rfl⟩
  · intro mf p hp
    cases p with
    | zero => exact absurd rfl hp
    | succ n => rfl

/-- C8 witness: concrete dust, legacy-dust and zero fee responses. -/
theorem claimC8_fee_floor_witness :
    (jsTruthyNat (some 5) = some 5 ∧ 5 < minGasPriceWei
      ∧ estimateGas (Except.ok 1000000) (Except.ok ⟨some 5, none⟩)
        = (1000000 * 120 / 100 + 100000, gwei01))
    ∧ (jsTruthyNat (none : Option Nat) = none ∧ jsTruthyNat (some 7) = some 7
      ∧ 7 < minGasPriceWei
      ∧ estimateGas (Except.ok 1000000) (Except.ok ⟨none, some 7⟩)
        = (1000000 * 120 / 100 + 100000, gwei01))
    ∧ estimateGas (Except.ok 42) (Except.ok ⟨some 0, some 0⟩) = (3000000, gwei01)
    ∧ create2GasPrice ⟨none, some 0⟩ = gwei01
    ∧ ((1 : Nat) ≠ 0 ∧ create2GasPrice ⟨none, some 1⟩ = 1) :=
  ⟨⟨rfl, by decide, claimC8_fee_floor.1 1000000 ⟨some 5, none⟩ 5 rfl (by decide)⟩,
   ⟨rfl, rfl, by decide,
    claimC8_fee_floor.2.1 1000000 ⟨none, some 7⟩ 7 rfl rfl (by decide)⟩,
   claimC8_fee_floor.2.2.1 42,
   (claimC8_fee_floor.2.2.2.1 none).1,
   ⟨by decide, claimC8_fee_floor.2.2.2.2 none 1 (by decide)⟩⟩

/-- C8 counterexample: a CREATE2 deployment whose target reports a 1 wei
fee-per-gas (far below 0.01 gwei) submits the transaction with that dust fee
unchanged — not with the 0.1 gwei safe default the claim requires of every
fee estimation. -/
theorem claimC8_counterexample :
    (deployToChainCREATE2
        ⟨Except.ok ⟨⟨none⟩, [7], "Box"⟩, some "k", Except.ok "w", (fun _ _ => []),
          (fun _ => List.range 32), (fun _ => "0xa"), Except.ok 1000000,
          Except.ok ⟨none, some 1⟩, Except.ok (10 ^ 18), Except.ok "0xth",
          Except.ok (some ⟨1, 5⟩)⟩
        ⟨"nova", "url", 9, none⟩ ⟨"", [], none, none, none, none, none⟩).2
      = some ⟨1700000, 1⟩
    ∧ (deployToChainCREATE2
        ⟨Except.ok ⟨⟨none⟩, [7], "Box"⟩, some "k", Except.ok "w", (fun _ _ => []),
          (fun _ => List.range 32), (fun _ => "0xa"), Except.ok 1000000,
          Except.ok ⟨none, some 1⟩, Except.ok (10 ^ 18), Except.ok "0xth",
          Except.ok (some ⟨1, 5⟩)⟩
        ⟨"nova", "url", 9, none⟩ ⟨"", [], none, none, none, none, none⟩).2
      ≠ some ⟨1700000, gwei01⟩ := by
  refine ⟨by decide, by decide⟩

/-- C9: append assigns each record the deterministic digest id
`generateId(chain, address, txHash)`; `importFromFile` merges by skipping
exactly the imported records whose id already exists in the store; applying
the same import twice adds records only the first time — the second
application leaves the stored deployments unchanged and returns an imported
count of 0. -/
theorem claimC9_import_idempotent_by_id
    (sha256hex : String → String) (now1 now2 filePath : String)
    (record : DeploymentRecord) (store imported : DeploymentManifest) :
    (addDeployment sha256hex now1 record store).2.id
        = generateId sha256hex record.chain record.address record.txHash
    ∧ importFromFile filePath (some imported) now1 store
        = Except.ok (importMerge imported now1 store)
    ∧ (importMerge imported now1 store).1.deployments
        = store.deployments ++ imported.deployments.filter
            (fun d => decide (d.id ∉ store.deployments.map (fun r => r.id)))
    ∧ (importMerge imported now2 (importMerge imported now1 store).1).2 = 0
    ∧ (importMerge imported now2 (importMerge imported now1 store).1).1.deployments
        = (importMerge imported now1 store).1.deployments := by
  have hm1 : (importMerge imported now1 store).1.deployments
      = store.deployments ++ imported.deployments.filter
          (fun d => decide (d.id ∉ store.deployments.map (fun r => r.id))) := by
    simp [importMerge, importLoop_eq]
  have hmem : ∀ d ∈ imported.deployments,
      d.id ∈ (importMerge imported now1 store).1.deployments.map (fun r => r.id) := by
    intro d hd
    rw [hm1, List.map_append, List.mem_append]
    by_cases hid : d.id ∈ store.deployments.map (fun r => r.id)
    · exact Or.inl hid
    · refine Or.inr (List.mem_map.mpr ⟨d, List.mem_filter.mpr ⟨hd, ?_⟩, rfl⟩)
      simpa using hid
  have hsecond : ∀ (n : String) (store2 : DeploymentManifest),
      (∀ d ∈ imported.deployments, d.id ∈ store2.deployments.map (fun r => r.id)) →
      (importMerge imported n store2).2 = 0
      ∧ (importMerge imported n store2).1.deployments = store2.deployments := by
    intro n store2 hmem2
    have hfil : imported.deployments.filter
        (fun d => decide (d.id ∉ store2.deployments.map (fun r => r.id))) = [] := by
      rw [List.filter_eq_nil_iff]
      intro d hd
      simpa using hmem2 d hd
    have him : importLoop (store2.deployments.map (fun d => d.id)) imported.deployments
        = ([], 0) := by
      rw [importLoop_eq, hfil]
      rfl
    constructor <;> simp [importMerge, him]
  refine ⟨?_, ?_, hm1, ?_, ?_⟩
  · simp [addDeployment]
  · simp [importFromFile]
  · exact (hsecond now2 ((importMerge imported now1 store).1) hmem).1
  · exact (hsecond now2 ((importMerge imported now1 store).1) hmem).2

/-- C10: the manifest append operations push every given record
unconditionally — the stored sequence afterwards is exactly the previous
sequence followed by the new record(s) with their digest ids — and the count
of records bearing the new record's digest id always grows by one, so
appending a record whose digest already occurs yields two stored records
with identical ids; only `importFromFile` deduplicates by id. -/
theorem claimC10_append_unconditional
    (sha256hex : String → String) (now : String) (record : DeploymentRecord)
    (records : List DeploymentRecord) (store : DeploymentManifest) :
    (addDeployment sha256hex now record store).1.deployments
        = store.deployments
          ++ [{ record with
                id := generateId sha256hex record.chain record.address record.txHash }]
    ∧ (addDeployments sha256hex now records store).1.deployments
        = store.deployments ++ records.map (fun r =>
            { r with id := generateId sha256hex r.chain r.address r.txHash })
    ∧ (addDeployment sha256hex now record store).1.deployments.countP
          (fun d => d.id = generateId sha256hex record.chain record.address record.txHash)
        = store.deployments.countP
            (fun d => d.id = generateId sha256hex record.chain record.address record.txHash)
          + 1 := by
  refine ⟨rfl, rfl, ?_⟩
  simp [addDeployment, List.countP_append, List.countP_cons]

end Chimera
